import Mathlib

/-!
# asio2: server lifecycle, broadcast, pool sizing and the UDP send operation

A shallow embedding of `asio2/base/server_impl.hpp` and
`asio2/udp/impl/udp_send_op.hpp`.

* The server is a record holding its collaborators (acceptor, session manager,
  io_context pool), the ambient last error and a log of every call made on a
  collaborator, in program order.
* Calls whose result the server code cannot determine (pool `run()`, acceptor
  `start()`, a session's `send`, the moment the acceptor signals its stop
  confirmation) take their outcome from an `Env`.
* An operation that can block for ever returns `Option α × server_impl`: `none`
  when the call never returns, with the state reached at that point.
* `system_error` is modelled by `Except Int`, the integer being
  `e.code().value()`.
-/

namespace asio2

/-! ## Data model -/

/-- Bytes held by a `buffer<uint8_t>`. -/
abbrev buffer := List Nat

/-- Identity of a `session_impl` object. -/
abbrev session_impl := Nat

/-- Calls made by the server on its collaborators, as they appear in the log. -/
inductive Event where
  | acceptor_stop
  | stopped_cv_wait
  | pool_stop
  | pool_run
  | acceptor_start
  | set_last_error (code : Int)
  | assert_failed
  | session_send (session : session_impl) (buf : buffer)
  deriving DecidableEq

/-- Outcome of a collaborator call that may raise `system_error`. -/
inductive Outcome (α : Type) where
  | ret (a : α)
  | raise (code : Int)
  deriving DecidableEq

/-- When the acceptor signals its stop confirmation (`m_stopped_cv`), relative
to the wait in `server_impl::stop()`. -/
inductive Signal where
  /-- while `stop()` is waiting -/
  | during_wait
  /-- before `stop()` has begun to wait -/
  | before_wait
  deriving DecidableEq

/-- Behaviour of the collaborators that the server code does not determine. -/
structure Env where
  /-- when the acceptor signals its stop confirmation -/
  confirmation : Signal
  /-- what `io_context_pool::run()` does -/
  pool_run : Outcome Unit
  /-- what `acceptor_impl::start()` does -/
  acceptor_start : Outcome Bool
  /-- what `session_impl::send(buf)` returns -/
  session_send : session_impl → buffer → Bool

/-- Modelled from the spec: `acceptor_impl` (asio2/base/acceptor_impl.hpp is not
among the sources). The acceptor owns the listening transport, its bound
address and port, a started flag and the session manager
(`m_session_mgr_ptr`), here the list of registered sessions. The fields are
what `is_started()`, `get_listen_address()`, `get_listen_port()` and the
session manager's enumeration and `get_session_count()` report. -/
structure acceptor_impl where
  started : Bool
  listen_address : String
  listen_port : Nat
  sessions : List session_impl
  deriving DecidableEq

/-- Modelled from the spec: `io_context_pool` (not among the sources): a fixed
number of loops, running or not. -/
structure io_context_pool where
  size : Nat
  running : Bool
  deriving DecidableEq

/-- Modelled from the spec: the class `url_parser` (URL/configuration parsing is
not among the sources): the configuration as a list of (name, value) pairs. -/
structure UrlParser where
  params : List (String × String)
  deriving DecidableEq

/-- State of a `server_impl` together with the ambient last error and the log
of collaborator calls. The listener manager is not used by any function
embedded here and is left out. -/
structure server_impl where
  m_url_parser_ptr : UrlParser
  m_acceptor_impl_ptr : acceptor_impl
  m_io_context_pool_ptr : io_context_pool
  last_error : Int
  log : List Event
  deriving DecidableEq

/-! ## Collaborators -/

/-- Modelled from the spec: `acceptor_impl::is_started()`. -/
def acceptor_impl.is_started (a : acceptor_impl) : Bool := a.started

/-- Modelled from the spec: `acceptor_impl::stop()` closes the listening
transport; afterwards the acceptor no longer reports started. -/
def acceptor_impl_stop (s : server_impl) : server_impl :=
  { s with
    m_acceptor_impl_ptr := { s.m_acceptor_impl_ptr with started := false }
    log := s.log ++ [Event.acceptor_stop] }

/-- The wait of `server_impl::stop()`: `m_stopped_mtx` is locked after acceptor
`stop()` has returned and `m_stopped_cv.wait(lock)` is called without a
predicate. The wait returns on a notification that arrives while it is
waiting; a confirmation signalled before the wait began is not seen, and the
wait does not return. -/
def stopped_cv_wait (env : Env) (s : server_impl) : Option Unit × server_impl :=
  let s1 := { s with log := s.log ++ [Event.stopped_cv_wait] }
  match env.confirmation with
  | Signal.during_wait => (some (), s1)
  | Signal.before_wait => (none, s1)

/-- Modelled from the spec: `io_context_pool::stop()` stops the loops and joins
the worker threads. -/
def io_context_pool_stop (s : server_impl) : server_impl :=
  { s with
    m_io_context_pool_ptr := { s.m_io_context_pool_ptr with running := false }
    log := s.log ++ [Event.pool_stop] }

/-- Modelled from the spec: `io_context_pool::run()` starts the worker threads;
when it fails the pool reports itself not started. -/
def io_context_pool_run (env : Env) (s : server_impl) : Except Int Unit × server_impl :=
  let s1 := { s with log := s.log ++ [Event.pool_run] }
  match env.pool_run with
  | Outcome.ret _ =>
    (Except.ok (), { s1 with m_io_context_pool_ptr := { s1.m_io_context_pool_ptr with running := true } })
  | Outcome.raise code => (Except.error code, s1)

/-- Modelled from the spec: `acceptor_impl::start()` binds and listens; on
success the acceptor reports started, on failure its state is unchanged. -/
def acceptor_impl_start (env : Env) (s : server_impl) : Except Int Bool × server_impl :=
  let s1 := { s with log := s.log ++ [Event.acceptor_start] }
  match env.acceptor_start with
  | Outcome.ret b =>
    (Except.ok b,
      { s1 with m_acceptor_impl_ptr :=
          { s1.m_acceptor_impl_ptr with started := s1.m_acceptor_impl_ptr.started || b } })
  | Outcome.raise code => (Except.error code, s1)

/-- Modelled from the spec: `set_last_error(code)` records the inspectable
last-error value (asio2/base/error.hpp is not among the sources). -/
def set_last_error (code : Int) (s : server_impl) : server_impl :=
  { s with last_error := code, log := s.log ++ [Event.set_last_error code] }

/-- Modelled from the spec: `ASIO2_ASSERT(cond)` (the macro is not among the
sources): a failed assertion is recorded and execution continues. -/
def ASIO2_ASSERT (cond : Bool) (s : server_impl) : server_impl :=
  if cond then s else { s with log := s.log ++ [Event.assert_failed] }

/-! ## server_impl: lifecycle -/

/-- The `server_impl::is_started()` query: the acceptor's answer. -/
def server_impl.is_started (s : server_impl) : Bool :=
  s.m_acceptor_impl_ptr.is_started

/-- The `server_impl::stop()` operation. -/
def server_impl.stop (env : Env) (s : server_impl) : Option Unit × server_impl :=
  let waited : Option Unit × server_impl :=
    if s.m_acceptor_impl_ptr.is_started then
      -- first close the acceptor
      let s2 := acceptor_impl_stop s
      stopped_cv_wait env s2
    else (some (), s)
  match waited with
  | (none, s1) => (none, s1)
  | (some _, s1) =>
    -- stop the io_context
    (some (), io_context_pool_stop s1)

/-- Body of the `try` block of `server_impl::start()`. -/
def server_impl.start_try (env : Env) (s : server_impl) :
    Option (Except Int Bool) × server_impl :=
  -- check if started and not stopped
  if s.is_started then
    (some (Except.ok false), ASIO2_ASSERT false s)
  else
    -- call stop before start
    match s.stop env with
    | (none, s1) => (none, s1)
    | (some _, s1) =>
      -- startup the io service thread
      match io_context_pool_run env s1 with
      | (Except.error code, s2) => (some (Except.error code), s2)
      | (Except.ok _, s2) =>
        -- start acceptor
        match acceptor_impl_start env s2 with
        | (r, s3) => (some r, s3)

/-- The `server_impl::start()` operation: the `try` block, the
`catch (system_error &)` handler and the final `return false`. -/
def server_impl.start (env : Env) (s : server_impl) : Option Bool × server_impl :=
  match s.start_try env with
  | (none, s1) => (none, s1)
  | (some (Except.ok b), s1) => (some b, s1)
  | (some (Except.error code), s1) => (some false, set_last_error code s1)

/-! ## server_impl: broadcast send -/

/-- Modelled from the spec: `session_mgr::for_each_session(handler)` visits the
registered sessions one after the other. -/
def session_mgr_for_each_session (handler : session_impl → server_impl → server_impl)
    (sessions : List session_impl) (s : server_impl) : server_impl :=
  sessions.foldl (fun w session_ptr => handler session_ptr w) s

/-- Modelled from the spec: `session_mgr::find_session_if(handler)` returns the
first registered session the predicate accepts, a null pointer if there is
none. -/
def session_mgr_find_session_if (handler : session_impl → server_impl → Bool × server_impl) :
    List session_impl → server_impl → Option session_impl × server_impl
  | [], s => (none, s)
  | session_ptr :: rest, s =>
    match handler session_ptr s with
    | (true, s1) => (some session_ptr, s1)
    | (false, s1) => session_mgr_find_session_if handler rest s1

/-- Modelled from the spec: `session_impl::send(buf_ptr)` hands the buffer to
the session's send pipeline; what it returns is up to the session. -/
def session_impl_send (env : Env) (session_ptr : session_impl) (buf_ptr : buffer)
    (s : server_impl) : Bool × server_impl :=
  (env.session_send session_ptr buf_ptr,
    { s with log := s.log ++ [Event.session_send session_ptr buf_ptr] })

/-- The `server_impl::send(const std::shared_ptr<buffer<uint8_t>> &)` overload. -/
def server_impl.send (env : Env) (s : server_impl) (buf_ptr : buffer) : Bool × server_impl :=
  if s.is_started then
    (true,
      session_mgr_for_each_session
        (fun session_ptr w => (session_impl_send env session_ptr buf_ptr w).2)
        s.m_acceptor_impl_ptr.sessions s)
  else
    (false, s)

/-- The `server_impl::send(const uint8_t * buf, std::size_t len)` overload. A
pointer is `none` when null, otherwise the bytes it points at; the buffer built
from it holds the first `len` of them. -/
def server_impl.send_ptr_len (env : Env) (s : server_impl) (buf : Option (List Nat)) (len : Nat) :
    Bool × server_impl :=
  match buf with
  | some mem => s.send env (mem.take len)
  | none => (false, s)

/-- The `std::strlen` function: the number of bytes before the first zero byte. -/
def strlen (mem : List Nat) : Nat := (mem.takeWhile (fun b => b != 0)).length

/-- The `server_impl::send(const char * buf)` overload. -/
def server_impl.send_cstr (env : Env) (s : server_impl) (buf : Option (List Nat)) :
    Bool × server_impl :=
  match buf with
  | some mem => s.send_ptr_len env (some mem) (strlen mem)
  | none => (false, s)

/-- The `server_impl::send(const std::string & s)` overload; `str.data()` is
never null. -/
def server_impl.send_string (env : Env) (s : server_impl) (str : List Nat) : Bool × server_impl :=
  s.send_ptr_len env (some str) str.length

/-! ## server_impl: queries -/

/-- The `server_impl::get_listen_address()` query. -/
def server_impl.get_listen_address (s : server_impl) : String :=
  s.m_acceptor_impl_ptr.listen_address

/-- The `server_impl::get_listen_port()` query. -/
def server_impl.get_listen_port (s : server_impl) : Nat :=
  s.m_acceptor_impl_ptr.listen_port

/-- The `server_impl::get_session_count()` query. -/
def server_impl.get_session_count (s : server_impl) : Nat :=
  s.m_acceptor_impl_ptr.sessions.length

/-- The `server_impl::for_each_session(handler)` operation. -/
def server_impl.for_each_session (s : server_impl)
    (handler : session_impl → server_impl → server_impl) : Bool × server_impl :=
  if s.is_started then
    (true, session_mgr_for_each_session handler s.m_acceptor_impl_ptr.sessions s)
  else
    (false, s)

/-- The `server_impl::find_session_if(handler)` operation. -/
def server_impl.find_session_if (s : server_impl)
    (handler : session_impl → server_impl → Bool × server_impl) :
    Option session_impl × server_impl :=
  if s.is_started then
    session_mgr_find_session_if handler s.m_acceptor_impl_ptr.sessions s
  else
    (none, s)

/-! ## server_impl: pool size -/

/-- Largest `unsigned long long`. -/
def ULLONG_MAX : Nat := 2 ^ 64 - 1

/-- Number of values of `unsigned int`, the type of
`std::thread::hardware_concurrency()`. -/
def UINT_MOD : Nat := 2 ^ 32

/-- Number of values of `std::size_t` (64-bit target). -/
def SIZE_MOD : Nat := 2 ^ 64

/-- The C `isspace` test in the "C" locale: space, and `\t \n \v \f \r`. -/
def isspace (c : Char) : Bool := c.toNat == 32 || (9 ≤ c.toNat && c.toNat ≤ 13)

/-- The C `isdigit` test. -/
def isdigit (c : Char) : Bool := 48 ≤ c.toNat && c.toNat ≤ 57

/-- Drop the leading white space of a C string. -/
def skip_space : List Char → List Char
  | [] => []
  | c :: cs => if isspace c then skip_space cs else c :: cs

/-- Value of the longest run of decimal digits at the head of a C string, on
top of the digits already read; `none` while no digit has been read. -/
def read_digits : List Char → Option Nat → Option Nat
  | [], acc => acc
  | c :: cs, acc =>
    if isdigit c then read_digits cs (some (acc.getD 0 * 10 + (c.toNat - 48))) else acc

/-- The C library function `strtoull(nptr, nullptr, 10)` (ISO C 7.22.1.4):
white space is skipped, one sign is accepted, the longest run of decimal digits
is converted and what follows is ignored; without a digit the result is 0, an
out-of-range value gives `ULLONG_MAX`, and a minus sign negates in the
unsigned type. -/
def strtoull (nptr : List Char) : Nat :=
  let body := skip_space nptr
  let signed : Bool × List Char :=
    match body with
    | [] => (false, [])
    | c :: cs =>
      if c.toNat == 45 then (true, cs)
      else if c.toNat == 43 then (false, cs)
      else (false, c :: cs)
  match read_digits signed.2 none with
  | none => 0
  | some v =>
    if ULLONG_MAX < v then ULLONG_MAX
    else if signed.1 then (ULLONG_MAX + 1 - v) % (ULLONG_MAX + 1)
    else v

/-- Modelled from the spec: `url_parser::get_param_value(name)`: the value of
the parameter, the empty string when it is absent. -/
def UrlParser.get_param_value (u : UrlParser) (name : String) : String :=
  (u.params.lookup name).getD ""

/-- The `server_impl::_get_io_context_pool_size()` function;
`hardware_concurrency` is what `std::thread::hardware_concurrency()` returns. -/
def _get_io_context_pool_size (hardware_concurrency : Nat) (m_url_parser_ptr : UrlParser) : Nat :=
  -- get io_context_pool_size from the url
  let size := (hardware_concurrency * 2) % UINT_MOD
  let val := m_url_parser_ptr.get_param_value "io_context_pool_size"
  let size := if !val.isEmpty then strtoull val.toList % SIZE_MOD else size
  let size := if size == 0 then (hardware_concurrency * 2) % UINT_MOD else size
  size

/-- The `server_impl` constructor: the pool is created with
`_get_io_context_pool_size()` loops. The acceptor, which a derived class
creates after the server, is passed in. -/
def server_impl.construct (hardware_concurrency : Nat) (url_parser_ptr : UrlParser)
    (acceptor : acceptor_impl) : server_impl :=
  { m_url_parser_ptr := url_parser_ptr
    m_acceptor_impl_ptr := acceptor
    m_io_context_pool_ptr :=
      { size := _get_io_context_pool_size hardware_concurrency url_parser_ptr, running := false }
    last_error := 0
    log := [] }

/-! ## udp_send_op -/

namespace detail

/-- Value of an `error_code`; 0 is success. -/
abbrev error_code := Int

/-- A datagram destination. -/
structure udp_endpoint where
  address : String
  port : Nat
  deriving DecidableEq

/-- Calls made by `udp_send_op` on the transport, the ambient error state, the
caller's callback and the derived class, as they appear in the log. -/
inductive UdpEvent where
  | async_send (data : List Nat)
  | async_send_to (data : List Nat) (endpoint : udp_endpoint)
  | send (data : List Nat)
  | send_to (data : List Nat) (endpoint : udp_endpoint)
  | set_last_error (ec : error_code)
  | callback (ec : error_code) (bytes_sent : Nat)
  | send_dequeue
  deriving DecidableEq

/-- State around a `udp_send_op`: the ambient last error and the log of calls. -/
structure udp_state where
  last_error : error_code
  log : List UdpEvent
  deriving DecidableEq

/-- A caller-supplied completion callback, called as `callback(ec, bytes_sent)`. -/
abbrev Callback := error_code → Nat → udp_state → udp_state

/-- A completion handler handed to the transport, called by it as
`handler(ec, bytes_sent)` when the transmission has completed. -/
abbrev Handler := error_code → Nat → udp_state → udp_state

/-- What the synchronous transport calls deliver: the error code and the number
of bytes sent. -/
structure UdpEnv where
  send : List Nat → error_code × Nat
  send_to : List Nat → udp_endpoint → error_code × Nat

/-- Modelled from the spec: `set_last_error(ec)` records the last error
(asio2/base/error.hpp is not among the sources). -/
def udp_set_last_error (ec : error_code) (st : udp_state) : udp_state :=
  { st with last_error := ec, log := st.log ++ [UdpEvent.set_last_error ec] }

/-- Modelled from the spec: `derive._send_dequeue()` (the derived class is not
among the sources) takes the completed entry off the send queue and begins the
next one; here the call is recorded. -/
def _send_dequeue (st : udp_state) : udp_state :=
  { st with log := st.log ++ [UdpEvent.send_dequeue] }

/-- The caller's callback that only records that it was called, and with what. -/
def recording_callback : Callback := fun ec bytes_sent st =>
  { st with log := st.log ++ [UdpEvent.callback ec bytes_sent] }

/-- The lambda that `_udp_send` and `_udp_send_to` hand to the transport in
asynchronous mode. -/
def completion_handler (callback : Callback) : Handler := fun ec bytes_sent st =>
  let st1 := udp_set_last_error ec st
  let st2 := callback ec bytes_sent st1
  _send_dequeue st2

/-- The `udp_send_op::_udp_send(data, callback)` function. The result is the
returned flag, the state, and the handler given to the transport, if any.
`ASIO2_SEND_CORE_ASYNC` tells whether the macro of that name is defined. -/
def _udp_send (ASIO2_SEND_CORE_ASYNC : Bool) (env : UdpEnv) (data : List Nat)
    (callback : Callback) (st : udp_state) : Bool × udp_state × Option Handler :=
  if ASIO2_SEND_CORE_ASYNC then
    (true, { st with log := st.log ++ [UdpEvent.async_send data] },
      some (completion_handler callback))
  else
    let r := env.send data
    let ec := r.1
    let bytes_sent := r.2
    let st1 := { st with log := st.log ++ [UdpEvent.send data] }
    let st2 := udp_set_last_error ec st1
    let st3 := callback ec bytes_sent st2
    (ec == 0, st3, none)

/-- The `udp_send_op::_udp_send_to(endpoint, data, callback)` function. -/
def _udp_send_to (ASIO2_SEND_CORE_ASYNC : Bool) (env : UdpEnv) (endpoint : udp_endpoint)
    (data : List Nat) (callback : Callback) (st : udp_state) :
    Bool × udp_state × Option Handler :=
  if ASIO2_SEND_CORE_ASYNC then
    (true, { st with log := st.log ++ [UdpEvent.async_send_to data endpoint] },
      some (completion_handler callback))
  else
    let r := env.send_to data endpoint
    let ec := r.1
    let bytes_sent := r.2
    let st1 := { st with log := st.log ++ [UdpEvent.send_to data endpoint] }
    let st2 := udp_set_last_error ec st1
    let st3 := callback ec bytes_sent st2
    (ec == 0, st3, none)

end detail

/-! ## Decimal numerals -/

/-- Decimal value of a string of digits read after the value `a`. -/
def digits_value (cs : List Char) (a : Nat) : Nat :=
  cs.foldl (fun v c => v * 10 + (c.toNat - 48)) a

/-- The size `_get_io_context_pool_size()` falls back to:
`std::thread::hardware_concurrency() * 2` in `unsigned int`. -/
def default_pool_size (hardware_concurrency : Nat) : Nat :=
  (hardware_concurrency * 2) % UINT_MOD

/-! ## Concrete inputs -/

/-- A configuration without parameters. -/
def no_params : UrlParser := { params := [] }

/-- A configuration whose `io_context_pool_size` parameter is `v`. -/
def pool_size_param (v : String) : UrlParser := { params := [("io_context_pool_size", v)] }

/-- A server that was never started: the acceptor is not started, nothing is
registered, the pool of 8 loops is not running. -/
def fresh_server : server_impl :=
  { m_url_parser_ptr := no_params
    m_acceptor_impl_ptr := { started := false, listen_address := "", listen_port := 0, sessions := [] }
    m_io_context_pool_ptr := { size := 8, running := false }
    last_error := 0
    log := [] }

/-- A started server listening on 0.0.0.0:8080 with sessions 1, 2 and 3. -/
def running_server : server_impl :=
  { m_url_parser_ptr := no_params
    m_acceptor_impl_ptr :=
      { started := true, listen_address := "0.0.0.0", listen_port := 8080, sessions := [1, 2, 3] }
    m_io_context_pool_ptr := { size := 8, running := true }
    last_error := 0
    log := [] }

/-- A server that is not started while its acceptor still reports the address
0.0.0.0:8080 and its session manager still holds sessions 1, 2 and 3. -/
def idle_server : server_impl :=
  { m_url_parser_ptr := no_params
    m_acceptor_impl_ptr :=
      { started := false, listen_address := "0.0.0.0", listen_port := 8080, sessions := [1, 2, 3] }
    m_io_context_pool_ptr := { size := 8, running := false }
    last_error := 0
    log := [] }

/-- Every collaborator call succeeds; the stop confirmation arrives while
`stop()` is waiting. -/
def env_ok : Env :=
  { confirmation := Signal.during_wait
    pool_run := Outcome.ret ()
    acceptor_start := Outcome.ret true
    session_send := fun _ _ => true }

/-- The stop confirmation is signalled before `stop()` begins to wait. -/
def env_early_confirmation : Env := { env_ok with confirmation := Signal.before_wait }

/-- The pool starts, acceptor `start()` returns false. -/
def env_acceptor_false : Env := { env_ok with acceptor_start := Outcome.ret false }

/-- The pool starts, acceptor `start()` raises `system_error` with code 98. -/
def env_acceptor_raise : Env := { env_ok with acceptor_start := Outcome.raise 98 }

/-- Pool `run()` raises `system_error` with code 11. -/
def env_pool_raise : Env := { env_ok with pool_run := Outcome.raise 11 }

/-- Every session's `send` returns false. -/
def env_send_fails : Env := { env_ok with session_send := fun _ _ => false }

/-! ## Lifecycle: stop -/

/-- With the acceptor not started, `stop()` returns after a single pool
`stop()`. -/
theorem stop_idle (env : Env) (s : server_impl)
    (h : s.m_acceptor_impl_ptr.is_started = false) :
    s.stop env = (some (), io_context_pool_stop s) := by
  unfold server_impl.stop
  rw [h]
  rfl

/-- With the acceptor started and the stop confirmation arriving while `stop()`
waits, `stop()` returns after acceptor `stop()`, the wait and pool `stop()`, in
this order, each exactly once. -/
theorem stop_started_order (env : Env) (s : server_impl)
    (h : s.m_acceptor_impl_ptr.is_started = true)
    (hc : env.confirmation = Signal.during_wait) :
    (s.stop env).1 = some () ∧
    (s.stop env).2.log =
      s.log ++ [Event.acceptor_stop, Event.stopped_cv_wait, Event.pool_stop] ∧
    (s.stop env).2.m_io_context_pool_ptr.running = false := by
  unfold server_impl.stop
  rw [h]
  simp [io_context_pool_stop, stopped_cv_wait, acceptor_impl_stop, hc]

/-- With the acceptor started and the stop confirmation signalled before
`stop()` begins to wait, `stop()` calls acceptor `stop()`, begins the wait and
never returns; pool `stop()` is not called and the pool is left as it was. -/
theorem stop_started_blocks (env : Env) (s : server_impl)
    (h : s.m_acceptor_impl_ptr.is_started = true)
    (hc : env.confirmation = Signal.before_wait) :
    (s.stop env).1 = none ∧
    (s.stop env).2.log = s.log ++ [Event.acceptor_stop, Event.stopped_cv_wait] ∧
    (s.stop env).2.m_io_context_pool_ptr = s.m_io_context_pool_ptr := by
  unfold server_impl.stop
  rw [h]
  simp [stopped_cv_wait, acceptor_impl_stop, hc]

/-- With the acceptor started, pool `stop()` is never called before acceptor
`stop()` and the wait: what `stop()` adds to the log is acceptor `stop()` and
the wait, followed by pool `stop()` exactly when `stop()` returns. -/
theorem stop_started_pool_stop_last (env : Env) (s : server_impl)
    (h : s.m_acceptor_impl_ptr.is_started = true) :
    (s.stop env).2.log =
      s.log ++ [Event.acceptor_stop, Event.stopped_cv_wait] ++
        (if (s.stop env).1 = some () then [Event.pool_stop] else []) := by
  cases hc : env.confirmation
  · obtain ⟨h1, h2, _⟩ := stop_started_order env s h hc
    rw [h1, h2]
    simp
  · obtain ⟨h1, h2, _⟩ := stop_started_blocks env s h hc
    rw [h1, h2]
    simp

/-- C1, the failing input: on the running server, when the acceptor's stop
confirmation is signalled before `stop()` begins to wait, `stop()` calls
acceptor `stop()`, begins the wait and never returns: pool `stop()` is not
called, not even once, and the pool keeps running. -/
theorem stop_blocks_on_early_confirmation :
    running_server.m_acceptor_impl_ptr.is_started = true ∧
    (running_server.stop env_early_confirmation).1 = none ∧
    (running_server.stop env_early_confirmation).2.log =
      [Event.acceptor_stop, Event.stopped_cv_wait] ∧
    Event.pool_stop ∉ (running_server.stop env_early_confirmation).2.log ∧
    (running_server.stop env_early_confirmation).2.m_io_context_pool_ptr.running = true := by
  decide

/-- C5: when the acceptor reports not started, `stop()` neither calls acceptor
`stop()` nor waits on the stop-confirmation signal: it returns after exactly
one pool `stop()`, the last error is untouched, and a `stop()` that follows any
`stop()` is again a single pool `stop()`. -/
theorem stop_not_started (env : Env) (s : server_impl)
    (h : s.m_acceptor_impl_ptr.is_started = false) :
    s.stop env = (some (), io_context_pool_stop s) ∧
    (s.stop env).2.log = s.log ++ [Event.pool_stop] ∧
    (s.stop env).2.last_error = s.last_error ∧
    (s.stop env).2.m_acceptor_impl_ptr = s.m_acceptor_impl_ptr ∧
    (∀ (t : server_impl) (env1 env2 : Env),
      (t.stop env1).2.m_acceptor_impl_ptr.is_started = false ∧
      ((t.stop env1).2.stop env2).1 = some () ∧
      ((t.stop env1).2.stop env2).2.log = (t.stop env1).2.log ++ [Event.pool_stop]) := by
  have off : ∀ (t : server_impl) (env1 : Env),
      (t.stop env1).2.m_acceptor_impl_ptr.is_started = false := by
    intro t env1
    unfold server_impl.stop
    cases ht : t.m_acceptor_impl_ptr.is_started
    · simpa [io_context_pool_stop] using ht
    · cases hc : env1.confirmation <;>
        simp [io_context_pool_stop, stopped_cv_wait, acceptor_impl_stop,
          acceptor_impl.is_started, hc]
  refine ⟨stop_idle env s h, ?_, ?_, ?_, ?_⟩
  · rw [stop_idle env s h]; rfl
  · rw [stop_idle env s h]; rfl
  · rw [stop_idle env s h]; rfl
  · intro t env1 env2
    refine ⟨off t env1, ?_, ?_⟩
    · rw [stop_idle env2 _ (off t env1)]
    · rw [stop_idle env2 _ (off t env1)]
      rfl

/-- Witness of C5 on the server that was never started, and on a second
`stop()` of the running server. -/
theorem stop_not_started_witness :
    fresh_server.m_acceptor_impl_ptr.is_started = false ∧
    fresh_server.stop env_ok = (some (), io_context_pool_stop fresh_server) ∧
    (fresh_server.stop env_ok).2.log = [Event.pool_stop] ∧
    ((running_server.stop env_ok).2.stop env_ok).2.log =
      [Event.acceptor_stop, Event.stopped_cv_wait, Event.pool_stop, Event.pool_stop] :=
  ⟨rfl, (stop_not_started env_ok fresh_server rfl).1,
    (stop_not_started env_ok fresh_server rfl).2.1,
    ((stop_not_started env_ok fresh_server rfl).2.2.2.2 running_server env_ok env_ok).2.2⟩

/-! ## Lifecycle: start -/

/-- C2: on a started server `start()` returns false and calls neither `stop()`
nor pool `run()` nor acceptor `start()`: the failed assertion is all that is
recorded, and acceptor, pool and last error are as before, so the server is
still started. -/
theorem start_when_started (env : Env) (s : server_impl) (h : s.is_started = true) :
    (s.start env).1 = some false ∧
    (s.start env).2.log = s.log ++ [Event.assert_failed] ∧
    (s.start env).2.m_acceptor_impl_ptr = s.m_acceptor_impl_ptr ∧
    (s.start env).2.m_io_context_pool_ptr = s.m_io_context_pool_ptr ∧
    (s.start env).2.last_error = s.last_error ∧
    (s.start env).2.is_started = true := by
  have e : s.start env = (some false, { s with log := s.log ++ [Event.assert_failed] }) := by
    unfold server_impl.start server_impl.start_try
    rw [h]
    rfl
  rw [e]
  exact ⟨rfl, rfl, rfl, rfl, rfl, h⟩

/-- Witness of C2 on the running server. -/
theorem start_when_started_witness :
    running_server.is_started = true ∧
    (running_server.start env_ok).1 = some false ∧
    (running_server.start env_ok).2.log = [Event.assert_failed] ∧
    (running_server.start env_ok).2.m_io_context_pool_ptr = running_server.m_io_context_pool_ptr :=
  ⟨rfl, (start_when_started env_ok running_server rfl).1,
    (start_when_started env_ok running_server rfl).2.1,
    (start_when_started env_ok running_server rfl).2.2.2.1⟩

/-- C4: on a server that is not started, `start()` calls `stop()` (here a single
pool `stop()`), then pool `run()`, then acceptor `start()`, in this order. It
returns true exactly when pool `run()` returned and acceptor `start()` returned
true. When a step raises `system_error` the later steps are skipped, false is
returned and the code is recorded as the last error. -/
theorem start_not_started (env : Env) (s : server_impl) (h : s.is_started = false) :
    (∀ b, env.pool_run = Outcome.ret () → env.acceptor_start = Outcome.ret b →
      (s.start env).1 = some b ∧
      (s.start env).2.log = (s.stop env).2.log ++ [Event.pool_run, Event.acceptor_start] ∧
      (s.start env).2.last_error = s.last_error) ∧
    (∀ code, env.pool_run = Outcome.raise code →
      (s.start env).1 = some false ∧
      (s.start env).2.log =
        (s.stop env).2.log ++ [Event.pool_run, Event.set_last_error code] ∧
      (s.start env).2.last_error = code) ∧
    (∀ code, env.pool_run = Outcome.ret () → env.acceptor_start = Outcome.raise code →
      (s.start env).1 = some false ∧
      (s.start env).2.log =
        (s.stop env).2.log ++
          [Event.pool_run, Event.acceptor_start, Event.set_last_error code] ∧
      (s.start env).2.last_error = code) ∧
    (s.stop env).2.log = s.log ++ [Event.pool_stop] ∧
    ((s.start env).1 = some true ↔
      env.pool_run = Outcome.ret () ∧ env.acceptor_start = Outcome.ret true) ∧
    (s.start env).1 ≠ none := by
  have hstop : s.stop env = (some (), io_context_pool_stop s) := stop_idle env s h
  refine ⟨?_, ?_, ?_, ?_, ?_, ?_⟩
  · intro b hp ha
    unfold server_impl.start server_impl.start_try
    rw [h]
    simp [io_context_pool_run, acceptor_impl_start, hp, ha, hstop, io_context_pool_stop]
  · intro code hp
    unfold server_impl.start server_impl.start_try
    rw [h]
    simp [io_context_pool_run, hp, hstop, io_context_pool_stop, set_last_error]
  · intro code hp ha
    unfold server_impl.start server_impl.start_try
    rw [h]
    simp [io_context_pool_run, acceptor_impl_start, hp, ha, hstop, io_context_pool_stop,
      set_last_error]
  · rw [hstop]; rfl
  · unfold server_impl.start server_impl.start_try
    rw [h]
    rcases hp : env.pool_run with _ | code
    · rcases ha : env.acceptor_start with b | code
      · simp [io_context_pool_run, acceptor_impl_start, hp, ha, hstop]
      · simp [io_context_pool_run, acceptor_impl_start, hp, ha, hstop]
    · simp [io_context_pool_run, hp, hstop]
  · unfold server_impl.start server_impl.start_try
    rw [h]
    rcases hp : env.pool_run with _ | code
    · rcases ha : env.acceptor_start with b | code
      · simp [io_context_pool_run, acceptor_impl_start, hp, ha, hstop]
      · simp [io_context_pool_run, acceptor_impl_start, hp, ha, hstop]
    · simp [io_context_pool_run, hp, hstop]

/-- Witness of C4 on the server that was never started, for a successful start,
a pool `run()` that raises and an acceptor `start()` that raises. -/
theorem start_not_started_witness :
    fresh_server.is_started = false ∧
    ((fresh_server.start env_ok).1 = some true ∧
      (fresh_server.start env_ok).2.log =
        [Event.pool_stop, Event.pool_run, Event.acceptor_start]) ∧
    ((fresh_server.start env_pool_raise).1 = some false ∧
      (fresh_server.start env_pool_raise).2.log =
        [Event.pool_stop, Event.pool_run, Event.set_last_error 11] ∧
      (fresh_server.start env_pool_raise).2.last_error = 11) ∧
    ((fresh_server.start env_acceptor_raise).1 = some false ∧
      (fresh_server.start env_acceptor_raise).2.last_error = 98) :=
  ⟨rfl,
    ⟨((start_not_started env_ok fresh_server rfl).1 true rfl rfl).1,
      ((start_not_started env_ok fresh_server rfl).1 true rfl rfl).2.1⟩,
    (start_not_started env_pool_raise fresh_server rfl).2.1 11 rfl,
    ⟨((start_not_started env_acceptor_raise fresh_server rfl).2.2.1 98 rfl rfl).1,
      ((start_not_started env_acceptor_raise fresh_server rfl).2.2.1 98 rfl rfl).2.2⟩⟩

/-- C3, refuted as stated: on the server that was never started, with an
acceptor whose `start()` returns false, `start()` returns false and the pool is
left running: the log ends with pool `run()` and acceptor `start()`, no pool
`stop()` follows. The same holds when acceptor `start()` raises. -/
theorem start_failure_leaves_pool_running :
    fresh_server.is_started = false ∧
    (fresh_server.start env_acceptor_false).1 = some false ∧
    (fresh_server.start env_acceptor_false).2.m_io_context_pool_ptr.running = true ∧
    (fresh_server.start env_acceptor_false).2.log =
      [Event.pool_stop, Event.pool_run, Event.acceptor_start] ∧
    (fresh_server.start env_acceptor_raise).1 = some false ∧
    (fresh_server.start env_acceptor_raise).2.m_io_context_pool_ptr.running = true ∧
    (fresh_server.start env_acceptor_raise).2.log =
      [Event.pool_stop, Event.pool_run, Event.acceptor_start, Event.set_last_error 98] := by
  decide

/-- C3, amended: on a server that is not started, when `start()` returns false
then `is_started()` is false afterwards and no pool `stop()` follows the pool
`run()` issued by this `start()`; the pool is left running exactly when pool
`run()` itself returned, that is when it was acceptor `start()` that returned
false or raised. -/
theorem start_failure_state (env : Env) (s : server_impl) (h : s.is_started = false)
    (hf : (s.start env).1 = some false) :
    (s.start env).2.is_started = false ∧
    (∃ rest, (s.start env).2.log = s.log ++ [Event.pool_stop, Event.pool_run] ++ rest ∧
      Event.pool_stop ∉ rest) ∧
    ((s.start env).2.m_io_context_pool_ptr.running = true ↔ env.pool_run = Outcome.ret ()) := by
  have hs2 : s.m_acceptor_impl_ptr.started = false := h
  have hstop : s.stop env = (some (), io_context_pool_stop s) := stop_idle env s h
  unfold server_impl.start server_impl.start_try at hf ⊢
  rw [h] at hf ⊢
  rcases hp : env.pool_run with _ | code
  · rcases ha : env.acceptor_start with b | code
    · have hb : b = false := by
        simpa [io_context_pool_run, acceptor_impl_start, hp, ha, hstop] using hf
      subst hb
      simp [io_context_pool_run, acceptor_impl_start, hp, ha, hstop, io_context_pool_stop,
        server_impl.is_started, acceptor_impl.is_started, hs2]
    · simp [io_context_pool_run, acceptor_impl_start, hp, ha, hstop, io_context_pool_stop,
        server_impl.is_started, acceptor_impl.is_started, hs2, set_last_error]
  · simp [io_context_pool_run, hp, hstop, io_context_pool_stop,
      server_impl.is_started, acceptor_impl.is_started, hs2, set_last_error]

/-- Witness of the amended C3: acceptor `start()` returns false on the server
that was never started. -/
theorem start_failure_state_witness :
    fresh_server.is_started = false ∧
    (fresh_server.start env_acceptor_false).1 = some false ∧
    (fresh_server.start env_acceptor_false).2.is_started = false ∧
    ((fresh_server.start env_acceptor_false).2.m_io_context_pool_ptr.running = true ↔
      env_acceptor_false.pool_run = Outcome.ret ()) :=
  ⟨rfl, rfl, (start_failure_state env_acceptor_false fresh_server rfl rfl).1,
    (start_failure_state env_acceptor_false fresh_server rfl rfl).2.2⟩

/-! ## Broadcast send -/

/-- Visiting the sessions with the broadcast lambda appends one `session_send`
per registered session, in registration order, and changes nothing else. -/
theorem for_each_session_send (env : Env) (buf : buffer) (sessions : List session_impl) :
    ∀ s : server_impl,
      session_mgr_for_each_session
          (fun session_ptr w => (session_impl_send env session_ptr buf w).2) sessions s =
        { s with log := s.log ++ sessions.map (fun p => Event.session_send p buf) } := by
  induction sessions with
  | nil => intro s; simp [session_mgr_for_each_session]
  | cons p rest ih =>
    intro s
    have step := ih (session_impl_send env p buf s).2
    simp only [session_mgr_for_each_session, List.foldl_cons] at step ⊢
    rw [step]
    simp [session_impl_send]

/-- Among the events of a broadcast, the sends to one session are as many as
the registrations of that session. -/
theorem count_session_send (buf : buffer) (p : session_impl) (sessions : List session_impl) :
    (sessions.map (fun q => Event.session_send q buf)).count (Event.session_send p buf) =
      sessions.count p := by
  induction sessions with
  | nil => rfl
  | cons q rest ih =>
    by_cases hq : q = p
    · subst hq; simp [ih]
    · have hne : Event.session_send q buf ≠ Event.session_send p buf := by
        intro he; injection he with h1 _; exact hq h1
      simp [List.count_cons, ih, hq, hne]

/-- C8: `send(buffer)` on a server that is not started returns false and calls
no session; on a started server it returns true and calls `send` with that
buffer on the registered sessions, one call per registration and in order,
whatever the sessions return; the pointer overloads return false and call no
session when the pointer is null. -/
theorem send_broadcast (env : Env) (s : server_impl) (buf : buffer) :
    (s.is_started = false → s.send env buf = (false, s)) ∧
    (s.is_started = true →
      (s.send env buf).1 = true ∧
      (s.send env buf).2 =
        { s with log := s.log ++
            (s.m_acceptor_impl_ptr.sessions.map (fun p => Event.session_send p buf)) } ∧
      (∀ p, ((s.m_acceptor_impl_ptr.sessions.map
            (fun q => Event.session_send q buf)).count (Event.session_send p buf)) =
          s.m_acceptor_impl_ptr.sessions.count p)) ∧
    (∀ len, s.send_ptr_len env none len = (false, s)) ∧
    s.send_cstr env none = (false, s) := by
  refine ⟨?_, ?_, fun _ => rfl, rfl⟩
  · intro h
    unfold server_impl.send
    rw [h]
    rfl
  · intro h
    unfold server_impl.send
    rw [h]
    refine ⟨rfl, ?_, fun p => count_session_send buf p _⟩
    simp only [if_true]
    exact for_each_session_send env buf _ s

/-- Witness of C8: a broadcast on the running server while every session's
`send` returns false, and a broadcast on the server that was never started. -/
theorem send_broadcast_witness :
    running_server.is_started = true ∧
    (running_server.send env_send_fails [104, 105]).1 = true ∧
    (running_server.send env_send_fails [104, 105]).2.log =
      [Event.session_send 1 [104, 105], Event.session_send 2 [104, 105],
        Event.session_send 3 [104, 105]] ∧
    fresh_server.is_started = false ∧
    fresh_server.send env_ok [104, 105] = (false, fresh_server) :=
  ⟨rfl, ((send_broadcast env_send_fails running_server [104, 105]).2.1 rfl).1,
    congrArg server_impl.log ((send_broadcast env_send_fails running_server [104, 105]).2.1 rfl).2.1,
    rfl, (send_broadcast env_ok fresh_server [104, 105]).1 rfl⟩

/-! ## Queries -/

/-- C9, refuted as stated: on a server that is not started, whose acceptor
reports 0.0.0.0:8080 and whose session manager holds three sessions, the three
queries return those values, not the defaults. -/
theorem queries_not_default_when_idle :
    idle_server.is_started = false ∧
    idle_server.get_session_count = 3 ∧ idle_server.get_session_count ≠ 0 ∧
    idle_server.get_listen_address = "0.0.0.0" ∧ idle_server.get_listen_address ≠ "" ∧
    idle_server.get_listen_port = 8080 ∧ idle_server.get_listen_port ≠ 0 := by
  decide

/-- C9, amended: on a server that is not started, the three queries return what
the acceptor and the session manager report, and they are the defaults exactly
when those are; `for_each_session` returns false and leaves the state as it
was for every handler, `find_session_if` returns null and leaves the state as
it was for every predicate. -/
theorem queries_when_not_started (s : server_impl) (h : s.is_started = false) :
    s.get_session_count = s.m_acceptor_impl_ptr.sessions.length ∧
    s.get_listen_address = s.m_acceptor_impl_ptr.listen_address ∧
    s.get_listen_port = s.m_acceptor_impl_ptr.listen_port ∧
    (s.get_session_count = 0 ↔ s.m_acceptor_impl_ptr.sessions = []) ∧
    (∀ handler, s.for_each_session handler = (false, s)) ∧
    (∀ handler, s.find_session_if handler = (none, s)) := by
  refine ⟨rfl, rfl, rfl, ?_, ?_, ?_⟩
  · simp [server_impl.get_session_count]
  · intro handler
    unfold server_impl.for_each_session
    rw [h]
    rfl
  · intro handler
    unfold server_impl.find_session_if
    rw [h]
    rfl

/-- Witness of the amended C9 on the idle server, with a handler and a
predicate that would leave a trace if they were called. -/
theorem queries_when_not_started_witness :
    idle_server.is_started = false ∧
    idle_server.get_session_count = 3 ∧
    idle_server.for_each_session (fun _ w => ASIO2_ASSERT false w) = (false, idle_server) ∧
    idle_server.find_session_if (fun _ w => (true, ASIO2_ASSERT false w)) = (none, idle_server) :=
  ⟨rfl, (queries_when_not_started idle_server rfl).1,
    (queries_when_not_started idle_server rfl).2.2.2.2.1 _,
    (queries_when_not_started idle_server rfl).2.2.2.2.2 _⟩

/-! ## UDP send operation -/

namespace detail

/-- C10: in asynchronous mode `_udp_send` and `_udp_send_to` return true after
issuing one `async_send` (for `_udp_send_to`: one `async_send_to` to the
endpoint of that call) and hand the transport a handler which, for every error
code `ec` and byte count `n`, records `ec`, calls the callback once with
`(ec, n)` and then calls `_send_dequeue()` once, whether or not `ec` is an
error. -/
theorem udp_async_completion (env : UdpEnv) (endpoint : udp_endpoint) (data : List Nat)
    (callback : Callback) (st : udp_state) :
    (_udp_send true env data callback st).1 = true ∧
    (_udp_send true env data callback st).2.1 =
      { st with log := st.log ++ [UdpEvent.async_send data] } ∧
    (_udp_send_to true env endpoint data callback st).1 = true ∧
    (_udp_send_to true env endpoint data callback st).2.1 =
      { st with log := st.log ++ [UdpEvent.async_send_to data endpoint] } ∧
    (∃ handler, (_udp_send true env data callback st).2.2 = some handler ∧
      ∀ (ec : error_code) (n : Nat) (st1 : udp_state),
        handler ec n st1 = _send_dequeue (callback ec n (udp_set_last_error ec st1))) ∧
    (∃ handler, (_udp_send_to true env endpoint data callback st).2.2 = some handler ∧
      ∀ (ec : error_code) (n : Nat) (st1 : udp_state),
        handler ec n st1 = _send_dequeue (callback ec n (udp_set_last_error ec st1))) ∧
    (∃ handler, (_udp_send true env data recording_callback st).2.2 = some handler ∧
      ∀ (ec : error_code) (n : Nat) (st1 : udp_state),
        (handler ec n st1).log = st1.log ++
          [UdpEvent.set_last_error ec, UdpEvent.callback ec n, UdpEvent.send_dequeue]) ∧
    (∃ handler,
      (_udp_send_to true env endpoint data recording_callback st).2.2 = some handler ∧
      ∀ (ec : error_code) (n : Nat) (st1 : udp_state),
        (handler ec n st1).log = st1.log ++
          [UdpEvent.set_last_error ec, UdpEvent.callback ec n, UdpEvent.send_dequeue]) := by
  refine ⟨rfl, rfl, rfl, rfl, ⟨_, rfl, fun _ _ _ => rfl⟩, ⟨_, rfl, fun _ _ _ => rfl⟩,
    ⟨_, rfl, ?_⟩, ⟨_, rfl, ?_⟩⟩
  · intro ec n st1
    simp [completion_handler, recording_callback, _send_dequeue, udp_set_last_error]
  · intro ec n st1
    simp [completion_handler, recording_callback, _send_dequeue, udp_set_last_error]

end detail

/-! ## Pool size: reading decimal numerals -/

/-- The character of a decimal digit has code 48 plus the digit. -/
theorem digitChar_toNat (k : Nat) (hk : k < 10) : (Nat.digitChar k).toNat = 48 + k := by
  interval_cases k <;> rfl

/-- The character of a decimal digit passes `isdigit`. -/
theorem isdigit_digitChar (k : Nat) (hk : k < 10) : isdigit (Nat.digitChar k) = true := by
  interval_cases k <;> rfl

/-- Reading a string that starts with the digits `ds` followed by something
that is not a digit yields the value of `ds`. -/
theorem read_digits_append (rest : List Char)
    (hrest : ∀ c, rest.head? = some c → isdigit c = false) :
    ∀ (ds : List Char) (acc : Option Nat), (∀ c ∈ ds, isdigit c = true) →
      read_digits (ds ++ rest) acc =
        if ds = [] then acc else some (digits_value ds (acc.getD 0)) := by
  intro ds
  induction ds with
  | nil =>
    intro acc _
    cases rest with
    | nil => rfl
    | cons c cs =>
      have hc : isdigit c = false := hrest c rfl
      simp [read_digits, hc]
  | cons d ds ih =>
    intro acc hds
    have hd : isdigit d = true := hds d (List.mem_cons_self _ _)
    have hds2 : ∀ c ∈ ds, isdigit c = true := fun c hc => hds c (List.mem_cons_of_mem _ hc)
    have step : read_digits (d :: ds ++ rest) acc =
        read_digits (ds ++ rest) (some (acc.getD 0 * 10 + (d.toNat - 48))) := by
      simp [read_digits, hd]
    rw [step, ih _ hds2]
    by_cases hnil : ds = []
    · subst hnil; simp [digits_value]
    · simp [hnil, digits_value]

/-- The digits that `Nat.toDigitsCore` puts in front of `ds` read back as `n`. -/
theorem digits_value_toDigitsCore :
    ∀ (fuel n : Nat) (ds : List Char), n < fuel →
      digits_value (Nat.toDigitsCore 10 fuel n ds) 0 = digits_value ds n := by
  intro fuel
  induction fuel with
  | zero => intro n ds h; omega
  | succ fuel ih =>
    intro n ds h
    have hd : (Nat.digitChar (n % 10)).toNat - 48 = n % 10 := by
      rw [digitChar_toNat _ (Nat.mod_lt _ (by decide))]; omega
    simp only [Nat.toDigitsCore]
    by_cases h0 : n / 10 = 0
    · simp only [h0, if_true]
      have hn : n % 10 = n := Nat.mod_eq_of_lt (by omega)
      simp only [digits_value, List.foldl_cons, Nat.zero_mul, Nat.zero_add, hd]
      rw [hn]
    · simp only [h0, if_false]
      rw [ih (n / 10) _ (by omega)]
      have hn : n / 10 * 10 + n % 10 = n := by omega
      simp [digits_value, hd, hn]

/-- Every character produced by `Nat.toDigitsCore` is a digit. -/
theorem isdigit_toDigitsCore :
    ∀ (fuel n : Nat) (ds : List Char), (∀ c ∈ ds, isdigit c = true) →
      ∀ c ∈ Nat.toDigitsCore 10 fuel n ds, isdigit c = true := by
  intro fuel
  induction fuel with
  | zero => intro n ds h; simpa [Nat.toDigitsCore] using h
  | succ fuel ih =>
    intro n ds h
    have hds : ∀ c ∈ Nat.digitChar (n % 10) :: ds, isdigit c = true := by
      intro c hc
      rcases List.mem_cons.mp hc with rfl | hc
      · exact isdigit_digitChar _ (Nat.mod_lt _ (by decide))
      · exact h c hc
    simp only [Nat.toDigitsCore]
    by_cases h0 : n / 10 = 0
    · simpa only [h0, if_true] using hds
    · simpa only [h0, if_false] using ih (n / 10) _ hds

/-- The numeral `Nat.toDigitsCore` builds on a non-empty tail is not empty. -/
theorem toDigitsCore_ne_nil :
    ∀ (fuel n : Nat) (ds : List Char), ds ≠ [] → Nat.toDigitsCore 10 fuel n ds ≠ [] := by
  intro fuel
  induction fuel with
  | zero => intro n ds h; simpa [Nat.toDigitsCore] using h
  | succ fuel ih =>
    intro n ds _
    simp only [Nat.toDigitsCore]
    by_cases h0 : n / 10 = 0
    · simp [h0]
    · simpa only [h0, if_false] using ih (n / 10) _ (List.cons_ne_nil _ _)

/-- The decimal numeral of `n` is a non-empty string of digits whose value is `n`. -/
theorem toString_digits (n : Nat) :
    (toString n).toList ≠ [] ∧ (∀ c ∈ (toString n).toList, isdigit c = true) ∧
    digits_value (toString n).toList 0 = n := by
  have e : (toString n).toList = Nat.toDigitsCore 10 (n + 1) n [] := rfl
  rw [e]
  refine ⟨?_, isdigit_toDigitsCore _ _ _ (by simp), ?_⟩
  · simp only [Nat.toDigitsCore]
    by_cases h0 : n / 10 = 0
    · simp [h0]
    · simpa only [h0, if_false] using toDigitsCore_ne_nil n (n / 10) _ (List.cons_ne_nil _ _)
  · rw [digits_value_toDigitsCore _ _ _ (Nat.lt_succ_self n)]
    rfl

/-- A digit is neither white space nor a sign. -/
theorem isdigit_not_space_sign (c : Char) (h : isdigit c = true) :
    isspace c = false ∧ (c.toNat == 45) = false ∧ (c.toNat == 43) = false := by
  simp only [isdigit, Bool.and_eq_true, decide_eq_true_eq] at h
  refine ⟨?_, ?_, ?_⟩
  · simp only [isspace, Bool.or_eq_false_iff, beq_eq_false_iff_ne, Bool.and_eq_false_iff,
      decide_eq_false_iff_not]
    omega
  · simp only [beq_eq_false_iff_ne]; omega
  · simp only [beq_eq_false_iff_ne]; omega

/-- Leading white space does not change what `strtoull` returns. -/
theorem strtoull_skip_space (ws l : List Char) (hws : ∀ c ∈ ws, isspace c = true) :
    strtoull (ws ++ l) = strtoull l := by
  have hskip : skip_space (ws ++ l) = skip_space l := by
    induction ws with
    | nil => rfl
    | cons w ws ih =>
      have hw : isspace w = true := hws w (List.mem_cons_self _ _)
      have hrec := ih (fun c hc => hws c (List.mem_cons_of_mem _ hc))
      simp only [List.cons_append, skip_space, hw, if_true]
      exact hrec
  unfold strtoull
  rw [hskip]

/-- Nothing is read from a string that does not start with a digit. -/
theorem read_digits_none (body : List Char)
    (hbody : ∀ c, body.head? = some c → isdigit c = false) : read_digits body none = none := by
  cases body with
  | nil => rfl
  | cons c cs => simp [read_digits, hbody c rfl]

/-- On a string that starts with neither white space, a sign nor a digit,
`strtoull` converts nothing and returns 0. -/
theorem strtoull_not_number (body : List Char)
    (hbody : ∀ c, body.head? = some c →
      isspace c = false ∧ isdigit c = false ∧ c.toNat ≠ 43 ∧ c.toNat ≠ 45) :
    strtoull body = 0 := by
  cases body with
  | nil => rfl
  | cons c cs =>
    obtain ⟨hspace, hdigit, hplus, hminus⟩ := hbody c rfl
    have h2 : (c.toNat == 45) = false := by simpa using hminus
    have h3 : (c.toNat == 43) = false := by simpa using hplus
    have hskip : skip_space (c :: cs) = c :: cs := by simp [skip_space, hspace]
    unfold strtoull
    rw [hskip]
    simp [h2, h3, read_digits, hdigit]

/-- On a sign that is not followed by a digit, `strtoull` converts nothing and
returns 0. -/
theorem strtoull_sign_only (sgn : Char) (body : List Char)
    (hsgn : sgn.toNat = 43 ∨ sgn.toNat = 45)
    (hbody : ∀ c, body.head? = some c → isdigit c = false) :
    strtoull (sgn :: body) = 0 := by
  have hspace : isspace sgn = false := by
    simp only [isspace, Bool.or_eq_false_iff, beq_eq_false_iff_ne, Bool.and_eq_false_iff,
      decide_eq_false_iff_not]
    omega
  have hskip : skip_space (sgn :: body) = sgn :: body := by simp [skip_space, hspace]
  have hnone := read_digits_none body hbody
  unfold strtoull
  rw [hskip]
  rcases hsgn with h | h
  · have h45 : (sgn.toNat == 45) = false := by simp [h]
    have h43 : (sgn.toNat == 43) = true := by simp [h]
    simp [h45, h43, hnone]
  · have h45 : (sgn.toNat == 45) = true := by simp [h]
    simp [h45, hnone]

/-- On a non-empty string of digits followed by something that is not a digit,
`strtoull` returns the value of the digits, `ULLONG_MAX` when it is out of
range, and ignores what follows. -/
theorem strtoull_digits (ds rest : List Char) (hne : ds ≠ [])
    (hdig : ∀ c ∈ ds, isdigit c = true)
    (hrest : ∀ c, rest.head? = some c → isdigit c = false) :
    strtoull (ds ++ rest) =
      if ULLONG_MAX < digits_value ds 0 then ULLONG_MAX else digits_value ds 0 := by
  have hread := read_digits_append rest hrest ds none hdig
  rw [if_neg hne, Option.getD_none] at hread
  cases ds with
  | nil => exact absurd rfl hne
  | cons d ds =>
    obtain ⟨h1, h2, h3⟩ := isdigit_not_space_sign d (hdig d (List.mem_cons_self _ _))
    have hskip : skip_space (d :: ds ++ rest) = d :: ds ++ rest := by
      simp [skip_space, h1]
    unfold strtoull
    rw [hskip]
    simp only [List.cons_append, h2, h3] at hread ⊢
    simp [hread]

/-- On a sign followed by a non-empty string of digits and then something that
is not a digit, `strtoull` returns the value of the digits, negated in
`unsigned long long` after a minus sign, and `ULLONG_MAX` when the value is out
of range. -/
theorem strtoull_sign_digits (sgn : Char) (ds rest : List Char)
    (hsgn : sgn.toNat = 43 ∨ sgn.toNat = 45) (hne : ds ≠ [])
    (hdig : ∀ c ∈ ds, isdigit c = true)
    (hrest : ∀ c, rest.head? = some c → isdigit c = false) :
    strtoull (sgn :: (ds ++ rest)) =
      if ULLONG_MAX < digits_value ds 0 then ULLONG_MAX
      else if sgn.toNat = 45 then (ULLONG_MAX + 1 - digits_value ds 0) % (ULLONG_MAX + 1)
      else digits_value ds 0 := by
  have hread := read_digits_append rest hrest ds none hdig
  rw [if_neg hne, Option.getD_none] at hread
  have hspace : isspace sgn = false := by
    simp only [isspace, Bool.or_eq_false_iff, beq_eq_false_iff_ne, Bool.and_eq_false_iff,
      decide_eq_false_iff_not]
    omega
  have hskip : skip_space (sgn :: (ds ++ rest)) = sgn :: (ds ++ rest) := by
    simp [skip_space, hspace]
  unfold strtoull
  rw [hskip]
  rcases hsgn with h | h
  · have h45 : (sgn.toNat == 45) = false := by simp [h]
    have h43 : (sgn.toNat == 43) = true := by simp [h]
    simp [h45, h43, hread, h]
  · have h45 : (sgn.toNat == 45) = true := by simp [h]
    simp [h45, hread, h]

/-- On the decimal numeral of `n` followed by something that is not a digit,
`strtoull` returns `n`, or `ULLONG_MAX` when `n` is out of range. -/
theorem strtoull_numeral (n : Nat) (rest : List Char)
    (hrest : ∀ c, rest.head? = some c → isdigit c = false) :
    strtoull ((toString n).toList ++ rest) = if ULLONG_MAX < n then ULLONG_MAX else n := by
  obtain ⟨hne, hdig, hval⟩ := toString_digits n
  rw [strtoull_digits _ rest hne hdig hrest, hval]

/-- On a minus sign followed by the decimal numeral of an `n` in range,
`strtoull` returns the negation of `n` in `unsigned long long`. -/
theorem strtoull_minus_numeral (n : Nat) (rest : List Char)
    (hrest : ∀ c, rest.head? = some c → isdigit c = false) (hn : n ≤ ULLONG_MAX) :
    strtoull (Char.ofNat 45 :: ((toString n).toList ++ rest)) =
      (ULLONG_MAX + 1 - n) % (ULLONG_MAX + 1) := by
  obtain ⟨hne, hdig, hval⟩ := toString_digits n
  have h45 : (Char.ofNat 45).toNat = 45 := by decide
  rw [strtoull_sign_digits _ _ rest (Or.inr h45) hne hdig hrest, hval,
    if_neg (Nat.not_lt.mpr hn), if_pos h45]

/-- Leading zeros do not change the value of a string of digits. -/
theorem digits_value_zeros (zeros ds : List Char) (hz : ∀ c ∈ zeros, c.toNat = 48) :
    digits_value (zeros ++ ds) 0 = digits_value ds 0 := by
  induction zeros with
  | nil => rfl
  | cons z zeros ih =>
    have hz0 : z.toNat = 48 := hz z (List.mem_cons_self _ _)
    have hrec := ih (fun c hc => hz c (List.mem_cons_of_mem _ hc))
    simp only [digits_value, List.cons_append, List.foldl_cons, hz0] at hrec ⊢
    exact hrec

/-- What `strtoull` returns on optional white space, an optional sign, optional
leading zeros and the decimal numeral of `n`, followed by something that is
not a digit: `n`, negated in `unsigned long long` after a minus sign, and
`ULLONG_MAX` when `n` is out of range. -/
theorem strtoull_general (ws sign zeros : List Char) (n : Nat) (rest : List Char)
    (hws : ∀ c ∈ ws, isspace c = true)
    (hsign : sign = [] ∨ sign = [Char.ofNat 43] ∨ sign = [Char.ofNat 45])
    (hzeros : ∀ c ∈ zeros, c.toNat = 48)
    (hrest : ∀ c, rest.head? = some c → isdigit c = false) :
    strtoull (ws ++ sign ++ zeros ++ (toString n).toList ++ rest) =
      if ULLONG_MAX < n then ULLONG_MAX
      else if sign = [Char.ofNat 45] then (ULLONG_MAX + 1 - n) % (ULLONG_MAX + 1)
      else n := by
  obtain ⟨hne, hdig, hval⟩ := toString_digits n
  have hne2 : zeros ++ (toString n).toList ≠ [] := by
    intro h
    exact hne (List.append_eq_nil.mp h).2
  have hdig2 : ∀ c ∈ zeros ++ (toString n).toList, isdigit c = true := by
    intro c hc
    rcases List.mem_append.mp hc with hc | hc
    · have h48 := hzeros c hc
      simp [isdigit, h48]
    · exact hdig c hc
  have hval2 : digits_value (zeros ++ (toString n).toList) 0 = n := by
    rw [digits_value_zeros zeros _ hzeros, hval]
  have hshape : ws ++ sign ++ zeros ++ (toString n).toList ++ rest =
      ws ++ (sign ++ ((zeros ++ (toString n).toList) ++ rest)) := by
    simp only [List.append_assoc]
  rw [hshape, strtoull_skip_space ws _ hws]
  rcases hsign with h | h | h
  · subst h
    have h45 : ¬ (([] : List Char) = [Char.ofNat 45]) := by decide
    rw [List.nil_append, strtoull_digits _ rest hne2 hdig2 hrest, hval2, if_neg h45]
  · subst h
    have h45 : ¬ ([Char.ofNat 43] = [Char.ofNat 45]) := by decide
    have hs : (Char.ofNat 43).toNat = 43 ∨ (Char.ofNat 43).toNat = 45 := Or.inl (by decide)
    have hn45 : ¬ ((Char.ofNat 43).toNat = 45) := by decide
    rw [List.singleton_append, strtoull_sign_digits _ _ rest hs hne2 hdig2 hrest, hval2,
      if_neg hn45, if_neg h45]
  · subst h
    have hs : (Char.ofNat 45).toNat = 43 ∨ (Char.ofNat 45).toNat = 45 := Or.inr (by decide)
    have h45 : (Char.ofNat 45).toNat = 45 := by decide
    rw [List.singleton_append, strtoull_sign_digits _ _ rest hs hne2 hdig2 hrest, hval2,
      if_pos h45, if_pos rfl]

/-- The `_get_io_context_pool_size()` result in terms of what `strtoull` reads
from the parameter. -/
theorem pool_size_eq (hw : Nat) (u : UrlParser) :
    _get_io_context_pool_size hw u =
      if u.get_param_value "io_context_pool_size" = "" then default_pool_size hw
      else if strtoull (u.get_param_value "io_context_pool_size").toList % SIZE_MOD = 0 then
        default_pool_size hw
      else strtoull (u.get_param_value "io_context_pool_size").toList % SIZE_MOD := by
  unfold _get_io_context_pool_size default_pool_size
  by_cases he : u.get_param_value "io_context_pool_size" = ""
  · have hempty : ("" : String).isEmpty = true := rfl
    simp [he, hempty]
  · have hne : (u.get_param_value "io_context_pool_size").isEmpty = false := by
      rw [Bool.eq_false_iff]
      intro h
      exact he ((String.isEmpty_iff _).mp h)
    simp only [hne, he, if_false, Bool.not_false, if_true]
    by_cases hz : strtoull (u.get_param_value "io_context_pool_size").toList % SIZE_MOD = 0
    · simp [hz]
    · simp [hz]

/-! ## Pool size -/

/-- C6, refuted as stated: with `hardware_concurrency()` = 4 the parameter
"12abc" gives 12 and "-3" gives 2^64 - 3, not the default 8; and the valid
positive decimal integer 2^64 gives 2^64 - 1, not itself. -/
theorem pool_size_reads_leading_number :
    _get_io_context_pool_size 4 (pool_size_param "12abc") = 12 ∧
    _get_io_context_pool_size 4 (pool_size_param "12abc") ≠ 4 * 2 ∧
    _get_io_context_pool_size 4 (pool_size_param "-3") = 18446744073709551613 ∧
    _get_io_context_pool_size 4 (pool_size_param "-3") ≠ 4 * 2 ∧
    _get_io_context_pool_size 4 (pool_size_param "18446744073709551616") =
      18446744073709551615 ∧
    _get_io_context_pool_size 4 (pool_size_param "18446744073709551616") ≠
      18446744073709551616 := by
  decide

/-- C6, amended: `_get_io_context_pool_size()` returns the default,
`hardware_concurrency() * 2` in `unsigned int`, when the parameter is absent or
empty, when after its leading white space it starts with neither a sign nor a
digit, and when a sign is not followed by a digit. When, after optional white
space, an optional sign and optional leading zeros, it starts with the decimal
numeral of `n` followed by something that is not a digit, it returns the
default for `n = 0`, `2^64 - 1` for `n` from `2^64` on, `2^64 - n` after a
minus sign and `n` otherwise; in particular a valid positive decimal integer
`n < 2^64` gives `n`, "12abc" gives 12 and "-3" gives `2^64 - 3`. -/
theorem pool_size_of_param (hw : Nat) (u : UrlParser) :
    (hw < 2 ^ 31 → default_pool_size hw = hw * 2) ∧
    (u.params.lookup "io_context_pool_size" = none →
      _get_io_context_pool_size hw u = default_pool_size hw) ∧
    (u.get_param_value "io_context_pool_size" = "" →
      _get_io_context_pool_size hw u = default_pool_size hw) ∧
    (∀ ws body, (u.get_param_value "io_context_pool_size").toList = ws ++ body →
      (∀ c ∈ ws, isspace c = true) →
      (∀ c, body.head? = some c →
        isspace c = false ∧ isdigit c = false ∧ c.toNat ≠ 43 ∧ c.toNat ≠ 45) →
      _get_io_context_pool_size hw u = default_pool_size hw) ∧
    (∀ ws sgn body, (u.get_param_value "io_context_pool_size").toList = ws ++ sgn :: body →
      (∀ c ∈ ws, isspace c = true) → (sgn.toNat = 43 ∨ sgn.toNat = 45) →
      (∀ c, body.head? = some c → isdigit c = false) →
      _get_io_context_pool_size hw u = default_pool_size hw) ∧
    (∀ (ws sign zeros : List Char) (n : Nat) (rest : List Char),
      (u.get_param_value "io_context_pool_size").toList =
        ws ++ sign ++ zeros ++ (toString n).toList ++ rest →
      (∀ c ∈ ws, isspace c = true) →
      (sign = [] ∨ sign = [Char.ofNat 43] ∨ sign = [Char.ofNat 45]) →
      (∀ c ∈ zeros, c.toNat = 48) →
      (∀ c, rest.head? = some c → isdigit c = false) →
      _get_io_context_pool_size hw u =
        if n = 0 then default_pool_size hw
        else if 2 ^ 64 ≤ n then 2 ^ 64 - 1
        else if sign = [Char.ofNat 45] then 2 ^ 64 - n
        else n) ∧
    (∀ (n : Nat) (rest : String),
      u.get_param_value "io_context_pool_size" = toString n ++ rest →
      (∀ c, rest.toList.head? = some c → isdigit c = false) →
      _get_io_context_pool_size hw u =
        if n = 0 then default_pool_size hw else if n < 2 ^ 64 then n else 2 ^ 64 - 1) ∧
    (∀ (n : Nat) (rest : String),
      u.get_param_value "io_context_pool_size" = "-" ++ toString n ++ rest →
      (∀ c, rest.toList.head? = some c → isdigit c = false) → 0 < n → n < 2 ^ 64 →
      _get_io_context_pool_size hw u = 2 ^ 64 - n) ∧
    (∀ c, isspace c = true ↔ (c.toNat = 32 ∨ (9 ≤ c.toNat ∧ c.toNat ≤ 13))) ∧
    (∀ c, isdigit c = true ↔ (48 ≤ c.toNat ∧ c.toNat ≤ 57)) := by
  have hmax : ULLONG_MAX = 2 ^ 64 - 1 := rfl
  have hsz : SIZE_MOD = 2 ^ 64 := rfl
  have hzero : strtoull (u.get_param_value "io_context_pool_size").toList = 0 →
      _get_io_context_pool_size hw u = default_pool_size hw := by
    intro hz
    rw [pool_size_eq, hz, Nat.zero_mod, if_pos rfl]
    exact ite_self _
  refine ⟨?_, ?_, ?_, ?_, ?_, ?_, ?_, ?_, ?_, ?_⟩
  · intro h
    unfold default_pool_size UINT_MOD
    exact Nat.mod_eq_of_lt (by omega)
  · intro h
    have he : u.get_param_value "io_context_pool_size" = "" := by
      simp [UrlParser.get_param_value, h]
    rw [pool_size_eq, if_pos he]
  · intro he
    rw [pool_size_eq, if_pos he]
  · intro ws body hl hws hbody
    apply hzero
    rw [hl, strtoull_skip_space ws body hws]
    exact strtoull_not_number body hbody
  · intro ws sgn body hl hws hsgn hbody
    apply hzero
    rw [hl, strtoull_skip_space ws _ hws]
    exact strtoull_sign_only sgn body hsgn hbody
  · intro ws sign zeros n rest hl hws hsign hzeros hrest
    have hne : u.get_param_value "io_context_pool_size" ≠ "" := by
      intro he
      have hd := congrArg String.toList he
      rw [hl] at hd
      have hnil := (toString_digits n).1
      have hd2 : ws ++ sign ++ zeros ++ (toString n).toList ++ rest = [] := hd
      simp only [List.append_eq_nil] at hd2
      exact hnil hd2.1.2
    have hs := strtoull_general ws sign zeros n rest hws hsign hzeros hrest
    rw [← hl] at hs
    rw [pool_size_eq, if_neg hne, hs, hsz, hmax]
    by_cases h0 : n = 0
    · subst h0
      have hlt : ¬ (2 ^ 64 - 1 < 0) := by omega
      rw [if_neg hlt, if_pos rfl]
      by_cases hm : sign = [Char.ofNat 45]
      · rw [if_pos hm]
        have hz : (2 ^ 64 - 1 + 1 - 0) % (2 ^ 64 - 1 + 1) % 2 ^ 64 = 0 := by decide
        rw [hz, if_pos rfl]
      · rw [if_neg hm, Nat.zero_mod, if_pos rfl]
    · rw [if_neg h0]
      by_cases hn : 2 ^ 64 ≤ n
      · have hlt : 2 ^ 64 - 1 < n := by omega
        have hm : (2 ^ 64 - 1) % 2 ^ 64 = 2 ^ 64 - 1 := by decide
        have hm0 : ¬ (2 ^ 64 - 1 = 0) := by decide
        rw [if_pos hlt, hm, if_neg hm0, if_pos hn]
      · have hlt : ¬ (2 ^ 64 - 1 < n) := by omega
        rw [if_neg hlt, if_neg hn]
        by_cases hm : sign = [Char.ofNat 45]
        · have hv : (2 ^ 64 - 1 + 1 - n) % (2 ^ 64 - 1 + 1) = 2 ^ 64 - n :=
            Nat.mod_eq_of_lt (by omega)
          have hnz : ¬ (2 ^ 64 - n = 0) := by omega
          rw [if_pos hm, if_pos hm, hv, Nat.mod_eq_of_lt (by omega), if_neg hnz]
        · rw [if_neg hm, if_neg hm, Nat.mod_eq_of_lt (by omega), if_neg h0]
  · intro n rest hv hrest
    rw [pool_size_eq]
    have hne : u.get_param_value "io_context_pool_size" ≠ "" := by
      intro he
      have hd := congrArg String.toList he
      rw [hv] at hd
      have hnil := (toString_digits n).1
      simp [String.toList] at hd hnil
      exact hnil hd.1
    have hs : strtoull (u.get_param_value "io_context_pool_size").toList =
        if ULLONG_MAX < n then ULLONG_MAX else n := by
      rw [hv]
      exact strtoull_numeral n rest.toList hrest
    rw [if_neg hne, hs, hsz, hmax]
    by_cases h0 : n = 0
    · subst h0; rfl
    · by_cases hn : n < 2 ^ 64
      · have hlt : ¬ (2 ^ 64 - 1 < n) := by omega
        rw [if_neg hlt, Nat.mod_eq_of_lt hn, if_neg h0, if_neg h0, if_pos hn]
      · have hlt : 2 ^ 64 - 1 < n := by omega
        have hm : (2 ^ 64 - 1) % 2 ^ 64 = 2 ^ 64 - 1 := by decide
        have hm0 : ¬ (2 ^ 64 - 1 = 0) := by decide
        rw [if_pos hlt, hm, if_neg hm0, if_neg h0, if_neg hn]
  · intro n rest hv hrest hpos hn
    rw [pool_size_eq]
    have hne : u.get_param_value "io_context_pool_size" ≠ "" := by
      intro he
      have hd := congrArg String.toList he
      rw [hv] at hd
      simp [String.toList] at hd
    have hs : strtoull (u.get_param_value "io_context_pool_size").toList =
        (ULLONG_MAX + 1 - n) % (ULLONG_MAX + 1) := by
      rw [hv]
      exact strtoull_minus_numeral n rest.toList hrest (by omega)
    have hval : (ULLONG_MAX + 1 - n) % (ULLONG_MAX + 1) = 2 ^ 64 - n := by
      rw [hmax]
      exact Nat.mod_eq_of_lt (by omega)
    rw [if_neg hne, hs, hval, hsz, Nat.mod_eq_of_lt (by omega)]
    have hnz : 2 ^ 64 - n ≠ 0 := by omega
    rw [if_neg hnz]
  · intro c
    simp [isspace]
  · intro c
    simp [isdigit]

/-- Witness of the amended C6 with `hardware_concurrency()` = 4: no parameter,
"abc", a lone " -", then " 12", "+12", "007", "00", "+0", "-0", "-3", "12abc",
"16", "0" and 2^64. -/
theorem pool_size_of_param_witness :
    _get_io_context_pool_size 4 no_params = 8 ∧
    _get_io_context_pool_size 4 (pool_size_param "abc") = 8 ∧
    _get_io_context_pool_size 4 (pool_size_param " -") = 8 ∧
    _get_io_context_pool_size 4 (pool_size_param " 12") = 12 ∧
    _get_io_context_pool_size 4 (pool_size_param "+12") = 12 ∧
    _get_io_context_pool_size 4 (pool_size_param "007") = 7 ∧
    _get_io_context_pool_size 4 (pool_size_param "00") = 8 ∧
    _get_io_context_pool_size 4 (pool_size_param "+0") = 8 ∧
    _get_io_context_pool_size 4 (pool_size_param "-0") = 8 ∧
    _get_io_context_pool_size 4 (pool_size_param "-3") = 2 ^ 64 - 3 ∧
    _get_io_context_pool_size 4 (pool_size_param "12abc") = 12 ∧
    _get_io_context_pool_size 4 (pool_size_param "16") = 16 ∧
    _get_io_context_pool_size 4 (pool_size_param "0") = 8 ∧
    _get_io_context_pool_size 4 (pool_size_param "18446744073709551616") = 2 ^ 64 - 1 :=
  ⟨(pool_size_of_param 4 no_params).2.1 rfl,
    (pool_size_of_param 4 (pool_size_param "abc")).2.2.2.1 [] "abc".toList rfl
      (by decide) (by decide),
    (pool_size_of_param 4 (pool_size_param " -")).2.2.2.2.1 " ".toList (Char.ofNat 45) [] rfl
      (by decide) (by decide) (by decide),
    (pool_size_of_param 4 (pool_size_param " 12")).2.2.2.2.2.1 " ".toList [] [] 12 [] rfl
      (by decide) (by decide) (by decide) (by decide),
    (pool_size_of_param 4 (pool_size_param "+12")).2.2.2.2.2.1 [] [Char.ofNat 43] [] 12 [] rfl
      (by decide) (by decide) (by decide) (by decide),
    (pool_size_of_param 4 (pool_size_param "007")).2.2.2.2.2.1 [] [] "00".toList 7 [] rfl
      (by decide) (by decide) (by decide) (by decide),
    (pool_size_of_param 4 (pool_size_param "00")).2.2.2.2.2.1 [] [] "0".toList 0 [] rfl
      (by decide) (by decide) (by decide) (by decide),
    (pool_size_of_param 4 (pool_size_param "+0")).2.2.2.2.2.1 [] [Char.ofNat 43] [] 0 [] rfl
      (by decide) (by decide) (by decide) (by decide),
    (pool_size_of_param 4 (pool_size_param "-0")).2.2.2.2.2.1 [] [Char.ofNat 45] [] 0 [] rfl
      (by decide) (by decide) (by decide) (by decide),
    (pool_size_of_param 4 (pool_size_param "-3")).2.2.2.2.2.1 [] [Char.ofNat 45] [] 3 [] rfl
      (by decide) (by decide) (by decide) (by decide),
    (pool_size_of_param 4 (pool_size_param "12abc")).2.2.2.2.2.2.1 12 "abc" rfl (by decide),
    (pool_size_of_param 4 (pool_size_param "16")).2.2.2.2.2.2.1 16 "" rfl (by decide),
    (pool_size_of_param 4 (pool_size_param "0")).2.2.2.2.2.2.1 0 "" rfl (by decide),
    (pool_size_of_param 4 (pool_size_param "18446744073709551616")).2.2.2.2.2.2.1
      18446744073709551616 "" rfl (by decide)⟩

/-- A non-zero default gives a pool size of at least 1. -/
theorem pool_size_pos (hw : Nat) (u : UrlParser) (h : 0 < default_pool_size hw) :
    1 ≤ _get_io_context_pool_size hw u := by
  rw [pool_size_eq]
  split_ifs with h1 h2
  · exact h
  · exact h
  · exact Nat.pos_of_ne_zero h2

/-- C7, the failing input: when `hardware_concurrency()` returns 0 and the
parameter is absent, "0" or not a number, `_get_io_context_pool_size()`
returns 0 and the pool is constructed with 0 loops. -/
theorem pool_size_zero_when_hardware_concurrency_zero :
    _get_io_context_pool_size 0 no_params = 0 ∧
    _get_io_context_pool_size 0 (pool_size_param "0") = 0 ∧
    _get_io_context_pool_size 0 (pool_size_param "abc") = 0 ∧
    (server_impl.construct 0 no_params
      fresh_server.m_acceptor_impl_ptr).m_io_context_pool_ptr.size = 0 := by
  decide

end asio2
